import Mathlib

/-!
Verification of the PAAS national prescription extractor
(`paas_extractor/extractor.py`) against its natural-language design notes.

The Python source is shallowly embedded below.  Modelling conventions:

* Python `str` is modelled as `List Char`; `str.lower()` as `List.map
  Char.toLower` (ASCII behaviour), `str.strip()` as dropping whitespace on
  both ends, and the `in` containment operator as an infix-of-list test.
* Python floats are modelled as `ℚ`.  `int(x)` (truncation toward zero) is
  `pyInt`, and `//` (floor division) is `qfdiv`.  Division by zero follows
  the `Rat` convention (`x / 0 = 0`); every theorem whose content depends on
  a quotient carries an explicit positivity hypothesis, so no result rests
  on that convention.
* `difflib.SequenceMatcher(None, a, b).ratio()` is an external standard
  library routine; the matcher embedding is parametric in a similarity
  oracle `simFn`, about which theorems assume only the documented range
  `[0, 1]` where they need it.
* Raised exceptions are modelled with `Except`: the orchestrator
  `extract` returns `.error .valueError` exactly when the Python
  `extract_prescription_data` lets an exception escape to the caller.
* Standardized-direction strings built with f-strings are modelled by the
  inductive `StdText`, one constructor per formatting site, keeping the
  numeric payloads; fixed strings are kept verbatim via `.raw`.
-/

unseal Rat.mul Rat.inv Rat.add Rat.sub

/-- Python whitespace test for `str.strip` / `\s` (ASCII fragment). -/
def isPySpace (c : Char) : Bool :=
  c = ' ' || c = '\t' || c = '\n' || c = '\r' || c = '\x0b' || c = '\x0c'

/-- `needle` occurs at the start of `hay` (list version of `startswith`). -/
def strStarts : List Char → List Char → Bool
  | [], _ => true
  | _ :: _, [] => false
  | a :: as, b :: bs => a == b && strStarts as bs

/-- Python `needle in hay` on strings: `needle` is a contiguous substring. -/
def strHas (hay needle : List Char) : Bool :=
  match hay with
  | [] => strStarts needle []
  | _ :: rest => strStarts needle hay || strHas rest needle

/-- `any(term in hay for term in needles)`. -/
def anyHas (hay : List Char) (needles : List (List Char)) : Bool :=
  needles.any (fun n => strHas hay n)

/-- Python `str.lower()` (ASCII behaviour). -/
def pyLower (s : List Char) : List Char := s.map Char.toLower

/-- Python `str.strip()`. -/
def pyStrip (s : List Char) : List Char :=
  ((s.dropWhile isPySpace).reverse.dropWhile isPySpace).reverse

/-- Python `str.isdigit()` (ASCII fragment): nonempty and all digits. -/
def pyIsdigit (s : List Char) : Bool := !s.isEmpty && s.all Char.isDigit

/-- Python `int(x)` on a float: truncation toward zero. -/
def pyInt (q : ℚ) : ℤ := if q < 0 then -⌊-q⌋ else ⌊q⌋

/-- Python `x // 2`-style floor division on floats. -/
def qfdiv (a b : ℚ) : ℚ := (⌊a / b⌋ : ℤ)

/-- Numeric value of a digit string. -/
def natVal (ds : List Char) : ℕ :=
  ds.foldl (fun a c => a * 10 + (c.toNat - '0'.toNat)) 0

/-- `(ds, rest)` split of a leading digit run. -/
def spanDigits (s : List Char) : List Char × List Char :=
  (s.takeWhile Char.isDigit, s.dropWhile Char.isDigit)

/--
Match the regex fragment `\d+(?:\.\d+)?` at the head of `s`: the numeric
value and the unconsumed remainder.  The optional fractional group is taken
only when a digit follows the dot, as the regex engine does.
-/
def parseNumber (s : List Char) : Option (ℚ × List Char) :=
  match spanDigits s with
  | ([], _) => none
  | (ds, rest) =>
    match rest with
    | '.' :: r2 =>
      match spanDigits r2 with
      | ([], _) => some ((natVal ds : ℚ), rest)
      | (fs, r3) => some ((natVal ds : ℚ) + (natVal fs : ℚ) / (10 : ℚ) ^ fs.length, r3)
    | _ => some ((natVal ds : ℚ), rest)

/-- Skip `\s*`. -/
def dropWs (s : List Char) : List Char := s.dropWhile isPySpace

/-- Consume a literal if it is a prefix, else fail. -/
def stripLit (lit s : List Char) : Option (List Char) :=
  if strStarts lit s then some (s.drop lit.length) else none

/-- Leftmost regex match over a string: try `matchAt` at every position. -/
def searchFirst (matchAt : List Char → Option ℚ) : List Char → Option ℚ
  | [] => none
  | s@(_ :: rest) =>
    match matchAt s with
    | some v => some v
    | none => searchFirst matchAt rest

/--
Match `\d+(?:\.\d+)?\s*(?:alt₁|alt₂|...)` at the head of `s`, returning the
captured number.  Mirrors the unit patterns of `_extract_numbers_from_sig`.
-/
def numUnitAt (alts : List (List Char)) (s : List Char) : Option ℚ :=
  match parseNumber s with
  | none => none
  | some (v, r1) =>
    let r2 := dropWs r1
    if alts.any (fun a => strStarts a r2) then some v else none

/--
The `units` pattern additionally allows `u\b`: a bare `u` followed by a
non-word character or the end of the string.
-/
def unitsTail (r1 : List Char) : Bool :=
  let r2 := dropWs r1
  if strStarts ("unit".data) r2 then true
  else
    match r2 with
    | 'u' :: [] => true
    | 'u' :: c :: _ => !(c.isAlphanum || c = '_')
    | _ => false

def unitsAt (s : List Char) : Option ℚ :=
  match parseNumber s with
  | none => none
  | some (v, r1) => if unitsTail r1 then some v else none

/-- First `(\d+(?:\.\d+)?)\s*(?:spray|sprays|puff|puffs)` match (the
`sprays` key of `_extract_numbers_from_sig`; the input is lowercased there). -/
def sprayFirst (sig : List Char) : Option ℚ :=
  searchFirst (numUnitAt [("spray".data), ("puff".data)]) (pyLower sig)

/-- First `(\d+(?:\.\d+)?)\s*(?:unit|units|u\b)` match. -/
def unitsFirst (sig : List Char) : Option ℚ :=
  searchFirst unitsAt (pyLower sig)

/--
After the number: `\s*times?\s*(?:per\s*)?(?:day|daily)` — the tail of the
explicit "N times per day" pattern of `_calculate_frequency_per_day`.
-/
def timesTail (r1 : List Char) : Bool :=
  match stripLit ("time".data) (dropWs r1) with
  | none => false
  | some r2 =>
    let r3 := match r2 with
      | 's' :: t => t
      | _ => r2
    let r4 := dropWs r3
    let r5 := match stripLit ("per".data) r4 with
      | some x => dropWs x
      | none => r4
    strStarts ("day".data) r5

def timesAt (s : List Char) : Option ℚ :=
  match parseNumber s with
  | none => none
  | some (v, r1) => if timesTail r1 then some v else none

/-- `re.search` of the explicit "N times per day" pattern. -/
def timesSearch (s : List Char) : Option ℚ := searchFirst timesAt s

/-- Keyword groups of `_calculate_frequency_per_day`. -/
def weeklyKw (sl : List Char) : Bool :=
  anyHas sl [("weekly".data), ("once a week".data), ("once weekly".data), ("every week".data)]

def biweeklyKw (sl : List Char) : Bool :=
  anyHas sl [("every other week".data), ("biweekly".data), ("every 2 weeks".data)]

def monthlyKw (sl : List Char) : Bool :=
  anyHas sl [("monthly".data), ("once a month".data), ("every month".data)]

def prnKw (sl : List Char) : Bool :=
  strHas sl ("prn".data) || strHas sl ("as needed".data)

def qidKw (sl : List Char) : Bool :=
  anyHas sl [("qid".data), ("q.i.d".data), ("four times".data)]

def tidKw (sl : List Char) : Bool :=
  anyHas sl [("thrice".data), ("tid".data), ("t.i.d".data), ("three times".data)]

def bidKw (sl : List Char) : Bool :=
  anyHas sl [("twice".data), ("bid".data), ("b.i.d".data)]

def dailyKw (sl : List Char) : Bool :=
  anyHas sl [("once".data), ("daily".data), ("qd".data), ("q.d".data), ("sid".data)]

/--
Embedding of `_calculate_frequency_per_day` (rule-based path; the LLM
enrichment adapter is disabled throughout this development).
-/
def calcFreq (sig : List Char) : ℚ :=
  let sl := pyLower sig
  if weeklyKw sl then 1 / 7
  else if biweeklyKw sl then 1 / 14
  else if monthlyKw sl then 1 / 30
  else if prnKw sl then
    (if strHas sl ("q4h".data) || strHas sl ("every 4 hours".data) then 9 / 2
     else if strHas sl ("q6h".data) || strHas sl ("every 6 hours".data)
          || strHas sl ("q6-8h".data) then 6
     else if strHas sl ("q8h".data) || strHas sl ("every 8 hours".data) then 5 / 2
     else if bidKw sl then 3 / 2
     else 1)
  else if qidKw sl then 4
  else if tidKw sl then 3
  else if bidKw sl then 2
  else if dailyKw sl && !strHas sl ("twice".data) && !strHas sl ("three times".data)
       && !strHas sl ("four times".data) then 1
  else if strHas sl ("q6h".data) || strHas sl ("every 6 hours".data) then 4
  else if strHas sl ("q8h".data) || strHas sl ("every 8 hours".data) then 3
  else if strHas sl ("q12h".data) || strHas sl ("every 12 hours".data) then 2
  else if strHas sl ("q24h".data) || strHas sl ("every 24 hours".data) then 1
  else if strHas sl ("q4h".data) || strHas sl ("every 4 hours".data) then 6
  else (timesSearch sl).getD 1

/-! ## The fuzzy drug-name matcher (`_fuzzy_match_drug_name`) -/

/-- `input_name.lower().strip()`. -/
def cleanName (s : List Char) : List Char := pyStrip (pyLower s)

/--
Substring-containment score: `shorter/longer` in the direction the code
checks, boosted by `+0.2` and capped at `0.95`.
-/
def subScore (inp k : List Char) : ℚ :=
  if strHas k inp then min (19 / 20) ((inp.length : ℚ) / (k.length : ℚ) + 1 / 5)
  else min (19 / 20) ((k.length : ℚ) / (inp.length : ℚ) + 1 / 5)

/--
The per-key body of the `_fuzzy_match_drug_name` loop (after the exact
short-circuit): the substring update, then the similarity update, which is
accepted only when it clears the `0.6` floor and strictly beats the
running best.  `simFn` stands for `SequenceMatcher(None, ·, ·).ratio()`,
an external standard library oracle.
-/
def keyUpdate (simFn : List Char → List Char → ℚ) (inp k : List Char)
    (best : Option (List Char) × ℚ) : Option (List Char) × ℚ :=
  let b1 :=
    if strHas k inp || strHas inp k then
      (let sc := subScore inp k
       if best.2 < sc then (some k, sc) else best)
    else best
  let sim := simFn inp k
  if b1.2 < sim ∧ 6 / 10 ≤ sim then (some k, sim) else b1

/--
The scan of `_fuzzy_match_drug_name` over the database keys; the `0.6`
similarity floor is the default `threshold` argument, which the
orchestrator never overrides.
-/
def fuzzyLoop (simFn : List Char → List Char → ℚ) (inp : List Char) :
    List (List Char) → Option (List Char) × ℚ → Option (List Char) × ℚ
  | [], best => best
  | k :: ks, best =>
    if inp = k then (some k, 1)
    else fuzzyLoop simFn inp ks (keyUpdate simFn inp k best)

/-- `_fuzzy_match_drug_name(input_name)` over the key list `keys`. -/
def fuzzyMatch (simFn : List Char → List Char → ℚ) (keys : List (List Char))
    (name : List Char) : Option (List Char) × ℚ :=
  fuzzyLoop simFn (cleanName name) keys (none, 0)

/-- A degenerate similarity oracle, used to instantiate closed evaluations
whose control flow never consults the oracle. -/
def simZero : List Char → List Char → ℚ := fun _ _ => 0

/-! ## Data model -/

/-- `MedicationType` of the source. -/
inductive MedicationType
  | nasalInhaler
  | oralInhaler
  | insulin
  | biologicInjectable
  | nonbiologicInjectable
  | eyedrop
  | topical
  | diabeticInjectable
  | unknown
deriving DecidableEq, Repr

/--
Standardized-direction strings are built with f-strings in the source; they
are modelled by one constructor per formatting site, keeping the numeric
payloads (`raw` keeps fixed or echoed strings verbatim).
-/
inductive StdText
  | raw (s : List Char)
  | useSprays (dose freq : ℚ)
  | inhalePuffs (dose : ℤ) (freq : ℚ)
  | injectUnits (dose : ℤ) (freq : ℚ)
  | injectDirected (freq : ℚ)
  | applyTopically (freq : ℚ)
deriving DecidableEq, Repr

/--
The `row.to_dict()` payload of a catalog entry.  Each field models one CSV
column read with `drug_data.get(key, default)`; `none` models an absent
key.  Day-count columns are integral, package-content columns numeric.
`exampleScenarios` models the already JSON-decoded
`Example_Days_Supply_Scenarios` cell: a map from integer daily usage to a
day supply.
-/
structure DrugData where
  maxTotalSprays : Option ℚ := none
  packageSizeValue : Option ℚ := none
  exampleScenarios : Option (List (ℕ × ℤ)) := none
  retailPuffsPerPackage : Option ℚ := none
  discardAfterOpeningDays : Option ℤ := none
  totalUnitsPerPackage : Option ℚ := none
  beyondUseDateDays : Option ℤ := none
  expirationAfterOpeningDays : Option ℤ := none
  packageCount : Option ℚ := none
deriving DecidableEq, Repr

/-- An entry of `self.drug_database`. -/
structure DBEntry where
  type : MedicationType
  data : DrugData
deriving DecidableEq, Repr

/-- `self.drug_database`: an insertion-ordered mapping, modelled as an
association list (Python dicts preserve insertion order). -/
abbrev Database := List (List Char × DBEntry)

def dbFind (db : Database) (m : List Char) : Option DBEntry :=
  (db.find? (fun kv => kv.1 == m)).map Prod.snd

/-- `self.drug_database[matched_name]["type"]`, `UNKNOWN` when absent. -/
def dbType (db : Database) (m : List Char) : MedicationType :=
  match dbFind db m with
  | some e => e.type
  | none => .unknown

/-- `self.drug_database[matched_name]["data"]`, `{}` when absent. -/
def dbData (db : Database) (m : List Char) : DrugData :=
  match dbFind db m with
  | some e => e.data
  | none => {}

/-- A row of the FTU dosing table used by `_process_topical_ftu`. -/
structure FtuRow where
  area : List Char
  gramsQd : ℚ
  gramsBid : ℚ
  gramsTid : ℚ
deriving DecidableEq, Repr

/-- A Python value that may arrive in the `quantity` field. -/
inductive PyVal
  | num (q : ℚ)
  | str (s : List Char)
deriving DecidableEq, Repr

/-- `PrescriptionInput`. -/
structure Prescription where
  drugName : List Char
  quantity : PyVal
  sig : List Char
deriving DecidableEq, Repr

/-- `ExtractedData` (the unclaimed `additional_info` payload is omitted). -/
structure Extracted where
  originalName : List Char
  matchedName : Option (List Char)
  medType : MedicationType
  correctedQty : ℚ
  daySupply : ℚ
  stdSig : StdText
  confidence : ℚ
  warnings : List (List Char)
deriving DecidableEq, Repr

/--
Python `float(x)` on a stripped string: optional sign, digits with at most
one dot and at least one digit.  (Exponent, `inf` and `nan` forms are
outside the modelled fragment; no claim depends on them.)
-/
def pyFloatStr (s : List Char) : Option ℚ :=
  let t := pyStrip s
  let su : ℚ × List Char :=
    match t with
    | '-' :: r => (-1, r)
    | '+' :: r => (1, r)
    | _ => (1, t)
  let (ds, rest) := spanDigits su.2
  match rest with
  | [] => if ds.isEmpty then none else some (su.1 * (natVal ds : ℚ))
  | '.' :: r2 =>
    let (fs, r3) := spanDigits r2
    if !r3.isEmpty then none
    else if ds.isEmpty && fs.isEmpty then none
    else some (su.1 * ((natVal ds : ℚ) + (natVal fs : ℚ) / (10 : ℚ) ^ fs.length))
  | _ => none

/-- Python `float(x)` on the quantity value. -/
def pyFloat : PyVal → Option ℚ
  | .num q => some q
  | .str s => pyFloatStr s

/--
The handler expression
`float(q) if str(q).replace(".", "").isdigit() else 1.0`.
For a float, `str(q)` is digits-and-dot exactly when the value is
nonnegative (exponent representations of extreme floats are outside the
modelled fragment).  For a string whose dot-stripped form is all digits but
which holds more than one dot, the inner `float` itself raises — modelled
as `none`.
-/
def degradedQty : PyVal → Option ℚ
  | .num q => if q < 0 then some 1 else some q
  | .str s => if pyIsdigit (s.filter (fun c => c != '.')) then pyFloatStr s else some 1

/-- `max(7, min(d, 365))` on integers. -/
def clampZ (n : ℤ) : ℤ := max 7 (min n 365)

/-- `max(7, min(d, 365))` on floats. -/
def qclamp (q : ℚ) : ℚ := max 7 (min q 365)

/-! ## Category calculators (rule-based paths; LLM enrichment disabled) -/

/-- Units per dose in `_process_insulin`: first `N units` number, default 10. -/
def insulinDose (sig : List Char) : ℚ := (unitsFirst sig).getD 10

/-- `Total_Units_per_Package` with the `<= 0 → 500` fallback. -/
def insulinUnits (d : DrugData) : ℚ :=
  let t0 := d.totalUnitsPerPackage.getD 0
  if t0 ≤ 0 then 500 else t0

/-- Day count of `_process_insulin` before the final `[7, 365]` clamp:
economic formula, then the beyond-use-date cap applied only when exceeded. -/
def insulinPreClamp (d : DrugData) (q : ℚ) (sig : List Char) : ℤ :=
  let freq := calcFreq sig
  let cd : ℤ :=
    if 0 < freq then pyInt (q * insulinUnits d / (insulinDose sig * freq)) else 30
  let bud := d.beyondUseDateDays.getD 28
  if bud < cd ∧ 0 < bud then bud else cd

/-- `_process_insulin` (corrected quantity, day supply, standardized sig). -/
def processInsulin (d : DrugData) (q : ℚ) (sig : List Char) (_m : List Char) :
    ℚ × ℚ × StdText :=
  (q, ((clampZ (insulinPreClamp d q sig) : ℤ) : ℚ),
   .injectUnits (pyInt (insulinDose sig)) (calcFreq sig))

/--
`_process_injectable(drug_data, quantity, sig, is_biologic)`.  Note: this
function is *dead code* in the source — the orchestrator dispatches
biologic and non-biologic injectables to the undefined attributes
`_process_biologic_injectable` / `_process_nonbiologic_injectable`.
-/
def processInjectable (_d : DrugData) (q : ℚ) (sig : List Char) (isBio : Bool) :
    ℚ × ℚ × StdText :=
  let freq := calcFreq sig
  let sl := pyLower sig
  let cd : ℤ :=
    if isBio then
      if strHas sl ("weekly".data) then pyInt (q * 7)
      else if strHas sl ("biweekly".data) || strHas sl ("every 2 weeks".data) then
        pyInt (q * 14)
      else if strHas sl ("monthly".data) then pyInt (q * 30)
      else if 0 < freq then pyInt (q / freq) else 30
    else
      if strHas sl ("monthly".data) || freq ≤ 1 / 30 then pyInt (q * 30)
      else if strHas sl ("weekly".data) || freq ≤ 1 / 7 then pyInt (q * 7)
      else if 0 < freq then pyInt (q / freq) else 30
  (q, ((clampZ cd : ℤ) : ℚ), .injectDirected freq)

/-- Day count of `_process_diabetic_injectable` before the final clamp. -/
def diabeticPreClamp (d : DrugData) (q : ℚ) (sig m : List Char) : ℤ :=
  let freq := calcFreq sig
  let expd := d.expirationAfterOpeningDays.getD 0
  let pc := d.packageCount.getD 1
  let nm := pyLower m
  let sl := pyLower sig
  if anyHas nm [("ozempic".data), ("semaglutide".data), ("mounjaro".data),
      ("tirzepatide".data), ("trulicity".data), ("dulaglutide".data), ("bydureon".data)] then
    if 0 < expd then expd
    else (let c := pyInt (q * pc * 7); if c < 28 then 28 else c)
  else if anyHas nm [("adlyxin".data), ("lixisenatide".data), ("victoza".data),
      ("liraglutide".data), ("byetta".data), ("exenatide".data)] then
    if 0 < expd then expd else pyInt (q * pc * 14)
  else if anyHas nm [("soliqua".data), ("xultophy".data)] then
    if 0 < expd then expd else 28
  else if anyHas nm [("symlinpen".data), ("pramlintide".data)] then
    if 0 < expd then expd else 30
  else if strHas sl ("weekly".data) || freq ≤ 1 / 7 then
    (let c := pyInt (q * pc * 7); if 0 < expd then min c expd else c)
  else if 0 < expd then expd
  else if 0 < freq then pyInt (q * pc / freq) else 30

/-- `_process_diabetic_injectable` (rule-based path). -/
def processDiabeticInjectable (d : DrugData) (q : ℚ) (sig m : List Char) :
    ℚ × ℚ × StdText :=
  (q, ((clampZ (diabeticPreClamp d q sig m) : ℤ) : ℚ), .injectDirected (calcFreq sig))

/-- Grams per day summed over the FTU rows whose area occurs in the sig. -/
def topicalGramsPerDay (ftu : List FtuRow) (sl : List Char) (freq : ℚ) : ℚ :=
  let g0 := ftu.foldl
    (fun acc row =>
      if strHas sl (pyLower row.area) then
        acc + (if freq = 1 then row.gramsQd
               else if freq = 2 then row.gramsBid
               else if freq = 3 then row.gramsTid
               else row.gramsQd * freq)
      else acc) 0
  if g0 = 0 then 2 * freq else g0

/--
`_process_topical_ftu`.  The `isinstance(quantity, str)` branch of the
source is bypassed here because the orchestrator always passes
`float(prescription.quantity)`.
-/
def processTopicalFtu (ftu : List FtuRow) (q : ℚ) (sig : List Char) :
    ℚ × ℚ × StdText :=
  let freq := calcFreq sig
  let gpd := topicalGramsPerDay ftu (pyLower sig) freq
  let day : ℤ := if 0 < gpd then pyInt (q / gpd) else 30
  (q, ((clampZ day : ℤ) : ℚ), .applyTopically freq)

/-- The per/each/both-nostril phrase test of `_process_nasal_inhaler`. -/
def nostrilPhrase (sl : List Char) : Bool :=
  anyHas sl [("per nostril".data), ("each nostril".data), ("in each nostril".data),
    ("both nostrils".data), ("bilat nares".data)]

/-- Sprays per dose before nostril doubling: first sprays number, default 1. -/
def sprayBase (sig : List Char) : ℚ := (sprayFirst sig).getD 1

/-- Sprays per dose of `_process_nasal_inhaler`, after nostril doubling. -/
def nasalSpraysPerDose (sig : List Char) : ℚ :=
  let b := sprayBase sig
  if nostrilPhrase (pyLower sig) then b * 2 else b

/-- The "common sig interpretation errors" correction table. -/
def nasalCorrectedUsage (sig : List Char) : Option ℕ :=
  let sl := pyLower sig
  if anyHas sl [("three times daily".data), ("3 times daily".data), ("tid".data)] then
    if strHas sl ("1 spray each nostril".data)
        || strHas sl ("one spray each nostril".data) then some 6
    else if strHas sl ("2 spray".data) || strHas sl ("two spray".data) then some 12
    else none
  else if anyHas sl [("four times daily".data), ("4 times daily".data), ("qid".data)] then
    if strHas sl ("1 spray each nostril".data)
        || strHas sl ("one spray each nostril".data) then some 8
    else if strHas sl ("2 spray".data) || strHas sl ("two spray".data) then some 16
    else none
  else none

/-- The generic (non-brand-special) nasal day-supply computation. -/
def nasalGenericDay (scen : List (ℕ × ℤ)) (sig : List Char) (total daily : ℚ) : ℤ :=
  if scen ≠ [] ∧ 0 < daily then
    match List.lookup (pyInt daily).toNat scen with
    | some v => v
    | none =>
      match nasalCorrectedUsage sig with
      | some cu =>
        (match List.lookup cu scen with
         | some v => v
         | none => pyInt (total / (cu : ℚ)))
      | none => pyInt (total / daily)
  else if 0 < daily then pyInt (total / daily)
  else 30

/-- Matched names that trigger a per-brand nasal override branch, all of
which bypass the final `[7, 365]` clamp. -/
def nasalOverrideName (nm : List Char) : Bool :=
  strHas nm ("calcitonin".data) || strHas nm ("butorphanol".data)
  || strHas nm ("migranol".data) || strHas nm ("migranal".data)
  || strHas nm ("nayzilam".data) || strHas nm ("neffy".data)
  || strHas nm ("zavzpret".data) || strHas nm ("sprix".data)
  || strHas nm ("trudhesa".data)

/-- `_process_nasal_inhaler` (rule-based path). -/
def processNasalInhaler (d : DrugData) (q : ℚ) (sig m : List Char) :
    ℚ × ℚ × StdText :=
  let nm := pyLower m
  let freq := calcFreq sig
  let spd := nasalSpraysPerDose sig
  let ms0 := d.maxTotalSprays.getD 0
  let maxSprays := if ms0 ≤ 0 then 120 else ms0
  let pkgMl := d.packageSizeValue.getD 15
  let cq := if 10 < q then q / pkgMl else q
  let scen := d.exampleScenarios.getD []
  let base := nasalGenericDay scen sig (cq * maxSprays) (spd * freq)
  let day : ℚ :=
    if strHas nm ("calcitonin".data) then maxSprays
    else if strHas nm ("butorphanol".data) then max 7 (min 14 maxSprays)
    else if strHas nm ("migranol".data) || strHas nm ("migranal".data) then
      max 32 (min 64 maxSprays)
    else if strHas nm ("nayzilam".data) || strHas nm ("neffy".data) then
      (if maxSprays ≤ 2 then 7 else max 7 (min 30 maxSprays))
    else if strHas nm ("zavzpret".data) then maxSprays
    else if strHas nm ("sprix".data) || strHas nm ("trudhesa".data) then
      (if maxSprays ≤ 8 then max 4 (min 7 maxSprays)
       else max 7 (min 14 (qfdiv maxSprays 2)))
    else ((clampZ base : ℤ) : ℚ)
  (cq, day, .useSprays spd freq)

/--
Puffs per dose and frequency of `_process_oral_inhaler` after the
device-family adjustments.  (The source's `if "puffs" in extracted` arm is
dead: `_extract_numbers_from_sig` files puff counts under the `sprays`
key, so the `sprays` arm always serves.)
-/
def oralParsed (sig m : List Char) : ℚ × ℚ :=
  let nm := pyLower m
  let freq0 := calcFreq sig
  let ppd0 := (sprayFirst sig).getD 2
  if strHas nm ("ellipta".data) then (1, if 1 < freq0 then 1 else freq0)
  else if strHas nm ("handihaler".data) || strHas nm ("twisthaler".data) then
    (min ppd0 2, if 2 < freq0 then min freq0 2 else freq0)
  else (ppd0, freq0)

/-- Rescue-inhaler family names. -/
def rescueNames (nm : List Char) : Bool :=
  anyHas nm [("albuterol".data), ("proair".data), ("ventolin".data), ("xopenex".data)]

/-- Generic oral-inhaler economic day count (scenario table, else ratio). -/
def oralBaseDays (scen : List (ℕ × ℤ)) (total daily : ℚ) : ℤ :=
  if scen ≠ [] ∧ 0 < daily then
    match List.lookup (pyInt daily).toNat scen with
    | some v => v
    | none => pyInt (total / daily)
  else if 0 < daily then pyInt (total / daily)
  else 30

/-- Rescue-inhaler day count (scenario, 2-puff fallback, conservative ratio). -/
def oralRescueDays (scen : List (ℕ × ℤ)) (total daily : ℚ) : ℤ :=
  if scen ≠ [] then
    match List.lookup (pyInt daily).toNat scen with
    | some v => v
    | none =>
      match List.lookup 2 scen with
      | some v => v
      | none => pyInt (total / max 4 daily)
  else pyInt (total / max 4 daily)

/-- The `calculated_days` value of `_process_oral_inhaler`, i.e. the
computed economic day supply before the discard cap and the final clamp. -/
def oralComputedDays (d : DrugData) (q : ℚ) (sig m : List Char) : ℚ :=
  let nm := pyLower m
  let pf := oralParsed sig m
  let ppp0 := d.retailPuffsPerPackage.getD 0
  let ppp := if ppp0 ≤ 0 then 200 else ppp0
  let dd := d.discardAfterOpeningDays.getD 0
  let scen := d.exampleScenarios.getD []
  let total := q * ppp
  if strHas nm ("ellipta".data) then min total (if 0 < dd then (dd : ℚ) else 90)
  else if rescueNames nm then ((oralRescueDays scen total (pf.2 * pf.1) : ℤ) : ℚ)
  else ((oralBaseDays scen total (pf.1 * pf.2) : ℤ) : ℚ)

/-- `_process_oral_inhaler` (rule-based path). -/
def processOralInhaler (d : DrugData) (q : ℚ) (sig m : List Char) :
    ℚ × ℚ × StdText :=
  let pf := oralParsed sig m
  let dd := d.discardAfterOpeningDays.getD 0
  let cd := oralComputedDays d q sig m
  let day := qclamp (if 0 < dd then min cd (dd : ℚ) else cd)
  (q, day, .inhalePuffs (pyInt pf.1) pf.2)

/--
The guard line of `_process_eyedrop`:
`calculated_days = int(total_drops / daily_drops) if daily_drops > 0 else 30`.
(The rest of `_process_eyedrop` is unreachable from the orchestrator, which
calls it with four positional arguments against three parameters.)
-/
def eyedropCalcDays (totalDrops daily : ℚ) : ℚ :=
  if 0 < daily then ((pyInt (totalDrops / daily) : ℤ) : ℚ) else 30

/-! ## The orchestrator (`extract_prescription_data`) -/

inductive PyExn
  | valueError
deriving DecidableEq, Repr

deriving instance DecidableEq for Except

def notInDbMarker : List Char := "MEDICATION NOT IN PAAS DATABASE".data

/-- `_create_unsupported_medication_result`. -/
def unsupportedResult (p : Prescription) : Extracted :=
  { originalName := p.drugName
    matchedName := none
    medType := .unknown
    correctedQty := 0
    daySupply := 0
    stdSig := .raw notInDbMarker
    confidence := 0
    warnings := [("Medication \x27".data) ++ p.drugName
      ++ ("\x27 is not in the PAAS National database and cannot be processed".data)] }

/-- Assembly of the final `ExtractedData` on the successful path. -/
def mkResult (p : Prescription) (m : List Char) (mt : MedicationType) (conf : ℚ)
    (t : ℚ × ℚ × StdText) : Extracted :=
  { originalName := p.drugName
    matchedName := some m
    medType := mt
    correctedQty := t.1
    daySupply := t.2.1
    stdSig := t.2.2
    confidence := conf
    warnings := [] }

/--
The `except Exception` handler of `extract_prescription_data`: day supply
30, original sig echoed, quantity best-effort parsed.  Its own `float`
call raises (propagating to the caller) exactly when the dot-stripped
quantity string is all digits but the string itself is not a float literal.
-/
def degradedResult (p : Prescription) (m : List Char) (mt : MedicationType)
    (conf : ℚ) : Except PyExn Extracted :=
  match degradedQty p.quantity with
  | some cq =>
    .ok { originalName := p.drugName
          matchedName := some m
          medType := mt
          correctedQty := cq
          daySupply := 30
          stdSig := .raw p.sig
          confidence := conf
          warnings := [] }
  | none => .error .valueError

/--
`extract_prescription_data` with LLM enrichment disabled.  Exception
sources inside the `try` block, all routed to `degradedResult`:

* biologic / non-biologic injectables: the dispatcher calls
  `self._process_biologic_injectable` / `self._process_nonbiologic_injectable`,
  neither of which is defined anywhere in the source — an `AttributeError`
  is raised before the arguments are even evaluated;
* eyedrops: `_process_eyedrop` is called with four positional arguments
  against three parameters — `float(quantity)` may raise `ValueError`
  first, otherwise the call raises `TypeError`;
* elsewhere, `float(prescription.quantity)` raises on unparseable strings.
-/
def extract (simFn : List Char → List Char → ℚ) (db : Database)
    (ftu : List FtuRow) (p : Prescription) : Except PyExn Extracted :=
  match fuzzyMatch simFn (db.map Prod.fst) p.drugName with
  | (none, _) => .ok (unsupportedResult p)
  | (some m, conf) =>
    if conf < 4 / 5 then .ok (unsupportedResult p)
    else
      match dbType db m with
      | .nasalInhaler =>
        match pyFloat p.quantity with
        | some f =>
          .ok (mkResult p m (dbType db m) conf (processNasalInhaler (dbData db m) f p.sig m))
        | none => degradedResult p m (dbType db m) conf
      | .oralInhaler =>
        match pyFloat p.quantity with
        | some f =>
          .ok (mkResult p m (dbType db m) conf (processOralInhaler (dbData db m) f p.sig m))
        | none => degradedResult p m (dbType db m) conf
      | .insulin =>
        match pyFloat p.quantity with
        | some f =>
          .ok (mkResult p m (dbType db m) conf (processInsulin (dbData db m) f p.sig m))
        | none => degradedResult p m (dbType db m) conf
      | .diabeticInjectable =>
        match pyFloat p.quantity with
        | some f =>
          .ok (mkResult p m (dbType db m) conf
            (processDiabeticInjectable (dbData db m) f p.sig m))
        | none => degradedResult p m (dbType db m) conf
      | .biologicInjectable => degradedResult p m (dbType db m) conf
      | .nonbiologicInjectable => degradedResult p m (dbType db m) conf
      | .eyedrop => degradedResult p m (dbType db m) conf
      | .topical =>
        match pyFloat p.quantity with
        | some f =>
          .ok (mkResult p m (dbType db m) conf (processTopicalFtu ftu f p.sig))
        | none => degradedResult p m (dbType db m) conf
      | .unknown =>
        match pyFloat p.quantity with
        | some f => .ok (mkResult p m (dbType db m) conf (f, 30, .raw p.sig))
        | none => degradedResult p m (dbType db m) conf

/-- Projection used by closed evaluations. -/
def okPart (e : Except PyExn Extracted) : Option Extracted :=
  match e with
  | .ok r => some r
  | .error _ => none

/-- Error projection used by closed evaluations. -/
def errPart (e : Except PyExn Extracted) : Option PyExn :=
  match e with
  | .ok _ => none
  | .error x => some x

/-! ## Reference descriptions used to state the matcher claim -/

/--
The score a single key can contribute in `_fuzzy_match_drug_name`, as the
spec describes it: the substring score when containment holds in either
direction, and the similarity score when it clears the `0.6` floor.
-/
def keyScore (simFn : List Char → List Char → ℚ) (inp k : List Char) : ℚ :=
  max (if strHas k inp || strHas inp k then subScore inp k else 0)
    (if 6 / 10 ≤ simFn inp k then simFn inp k else 0)

/-- One step of the best-candidate scan: replace the running best only on a
strictly higher score (so the earliest key wins ties). -/
def scanStep (simFn : List Char → List Char → ℚ) (inp : List Char)
    (st : Option (List Char) × ℚ) (k : List Char) : Option (List Char) × ℚ :=
  if st.2 < keyScore simFn inp k then (some k, keyScore simFn inp k) else st

/-! ## Concrete fixtures for closed evaluations -/

/--
Modelled from the spec: the `insulin_products.csv` catalog row for Humalog
(the catalog data files of this repository are not under `src/`).  A
Humalog KwikPen carton holds 5 pens × 3 mL × 100 units/mL = 1500 total
units, with a 28-day beyond-use date.
-/
def humalogData : DrugData :=
  { totalUnitsPerPackage := some 1500, beyondUseDateDays := some 28 }

def humalogDb : Database := [(("humalog".data), ⟨.insulin, humalogData⟩)]

def humalogInput : Prescription :=
  ⟨("Humalog".data), .num 5, ("15 units tid".data)⟩

/-- A nasal-spray catalog row for Zavzpret: the source's own comment says
"With 6 sprays, should last about 6 days". -/
def zavzpretData : DrugData :=
  { maxTotalSprays := some 6, packageSizeValue := some 15 }

def zavzpretDb : Database := [(("zavzpret".data), ⟨.nasalInhaler, zavzpretData⟩)]

def zavzpretInput : Prescription :=
  ⟨("zavzpret".data), .num 1, ("use 1 spray daily".data)⟩

/-- An insulin-category db used to exhibit the handler's own `ValueError`. -/
def badQtyDb : Database := [(("humalog".data), ⟨.insulin, {}⟩)]

def badQtyInput : Prescription :=
  ⟨("humalog".data), .str ("1.2.3".data), ("15 units tid".data)⟩

/-- A biologic-injectable db for the missing-method dispatch. -/
def enbrelDb : Database := [(("enbrel".data), ⟨.biologicInjectable, {}⟩)]

def enbrelInput : Prescription :=
  ⟨("enbrel".data), .num 4, ("inject weekly".data)⟩

/-- What the orchestrator actually returns for `enbrelInput`: the degraded
exception result, not the injectable formula. -/
def enbrelActual : Extracted :=
  { originalName := ("enbrel".data)
    matchedName := some ("enbrel".data)
    medType := .biologicInjectable
    correctedQty := 4
    daySupply := 30
    stdSig := .raw ("inject weekly".data)
    confidence := 1
    warnings := [] }

/-- An oral inhaler with a 3-day discard window (below the clamp floor). -/
def shortDiscardData : DrugData :=
  { retailPuffsPerPackage := some 200, discardAfterOpeningDays := some 3 }

/-- An oral inhaler with a 30-day discard window. -/
def discard30Data : DrugData :=
  { retailPuffsPerPackage := some 200, discardAfterOpeningDays := some 30 }

def w4Db : Database := [(("humalog".data), ⟨.insulin, {}⟩)]

def w4Input : Prescription :=
  ⟨("XYZ-Not-A-Drug".data), .num 1, ("take daily".data)⟩

def w1Db : Database := [(("flixonase".data), ⟨.nasalInhaler, { maxTotalSprays := some 120 }⟩)]

def w1Input : Prescription :=
  ⟨("flixonase".data), .num 1, ("2 sprays daily".data)⟩

/-- The result the orchestrator returns for `w1Input` against `w1Db`. -/
def w1res : Extracted :=
  { originalName := ("flixonase".data)
    matchedName := some ("flixonase".data)
    medType := .nasalInhaler
    correctedQty := 1
    daySupply := 60
    stdSig := .useSprays 2 1
    confidence := 1
    warnings := [] }

example : calcFreq ("take twice daily".data) = 2 := by decide
example : calcFreq ("15 units tid".data) = 3 := by decide
example : calcFreq ("inject weekly".data) = 1 / 7 := by decide
example : calcFreq ("take twice daily as needed".data) = 3 / 2 := by decide
example : calcFreq ("inject 0 times per day".data) = 0 := by decide
example : sprayFirst ("2 puffs per nostril daily".data) = some 2 := by decide
example : unitsFirst ("15 units tid".data) = some 15 := by decide
example : unitsFirst ("Inject 20 U at bedtime".data) = some 20 := by decide
example : sprayFirst ("no numbers here".data) = none := by decide

example :
    fuzzyMatch simZero [("humalog".data), ("ozempic".data)] ("  Humalog ".data)
      = (some ("humalog".data), 1) := by decide

example :
    (okPart (extract simZero humalogDb [] humalogInput)).map Extracted.daySupply
    = some 28 := by decide

example : errPart (extract simZero badQtyDb [] badQtyInput) = some .valueError := by
  decide

example :
    (okPart (extract simZero enbrelDb [] enbrelInput)).map Extracted.daySupply
    = some 30 := by decide

example :
    (okPart (extract simZero [] [] w4Input)).map Extracted.confidence
    = some 0 := by decide

example :
    (okPart (extract simZero zavzpretDb [] zavzpretInput)).map Extracted.daySupply
    = some 6 := by decide

/-! ## Helper lemmas -/

theorem clampZ_ge7 (n : ℤ) : 7 ≤ clampZ n := le_max_left _ _

theorem clampZ_le365 (n : ℤ) : clampZ n ≤ 365 :=
  max_le (by norm_num) (min_le_right _ _)

theorem qclamp_ge7 (q : ℚ) : 7 ≤ qclamp q := le_max_left _ _

theorem qclamp_le365 (q : ℚ) : qclamp q ≤ 365 :=
  max_le (by norm_num) (min_le_right _ _)

theorem qclamp_cast (z : ℤ) : qclamp (z : ℚ) = ((clampZ z : ℤ) : ℚ) := by
  unfold qclamp clampZ
  push_cast
  rfl

theorem parseNumber_nonneg {s : List Char} {v : ℚ} {r : List Char}
    (h : parseNumber s = some (v, r)) : 0 ≤ v := by
  unfold parseNumber at h
  split at h
  · exact absurd h (by simp)
  · split at h
    · split at h
      · injection h with h2
        obtain ⟨h3, -⟩ := Prod.mk.injEq .. ▸ h2
        subst h3
        positivity
      · injection h with h2
        obtain ⟨h3, -⟩ := Prod.mk.injEq .. ▸ h2
        subst h3
        positivity
    · injection h with h2
      obtain ⟨h3, -⟩ := Prod.mk.injEq .. ▸ h2
      subst h3
      positivity

theorem timesAt_parse {s : List Char} {v : ℚ} (h : timesAt s = some v) :
    ∃ r, parseNumber s = some (v, r) := by
  unfold timesAt at h
  split at h
  · exact absurd h (by simp)
  · next w r1 hp =>
    split at h
    · injection h with h2
      exact ⟨r1, h2 ▸ hp⟩
    · exact absurd h (by simp)

theorem searchFirst_nonneg {f : List Char → Option ℚ}
    (hf : ∀ t w, f t = some w → 0 ≤ w) :
    ∀ s v, searchFirst f s = some v → 0 ≤ v := by
  intro s
  induction s with
  | nil => intro v h; simp [searchFirst] at h
  | cons c rest ih =>
    intro v h
    unfold searchFirst at h
    split at h
    · next w hw =>
      injection h with h2
      exact h2 ▸ hf _ _ hw
    · exact ih _ h

theorem timesSearch_nonneg (s : List Char) (v : ℚ)
    (h : timesSearch s = some v) : 0 ≤ v := by
  refine searchFirst_nonneg ?_ s v h
  intro t w hw
  obtain ⟨r, hr⟩ := timesAt_parse hw
  exact parseNumber_nonneg hr

/-- Every keyword branch of the frequency parser returns at least `1/30`;
otherwise the result is the explicit "N times per day" pattern value. -/
theorem calcFreq_cases (sig : List Char) :
    1 / 30 ≤ calcFreq sig ∨ calcFreq sig = (timesSearch (pyLower sig)).getD 1 := by
  have pite : ∀ (c : Prop) [Decidable c] (a b : ℚ),
      (1 / 30 ≤ a ∨ a = (timesSearch (pyLower sig)).getD 1) →
      (1 / 30 ≤ b ∨ b = (timesSearch (pyLower sig)).getD 1) →
      (1 / 30 ≤ (if c then a else b) ∨
        (if c then a else b) = (timesSearch (pyLower sig)).getD 1) := by
    intro c _ a b ha hb
    split
    · exact ha
    · exact hb
  simp only [calcFreq]
  refine pite _ _ _ (Or.inl (by norm_num)) ?_
  refine pite _ _ _ (Or.inl (by norm_num)) ?_
  refine pite _ _ _ (Or.inl (by norm_num)) ?_
  refine pite _ _ _ ?_ ?_
  · refine pite _ _ _ (Or.inl (by norm_num)) ?_
    refine pite _ _ _ (Or.inl (by norm_num)) ?_
    refine pite _ _ _ (Or.inl (by norm_num)) ?_
    exact pite _ _ _ (Or.inl (by norm_num)) (Or.inl (by norm_num))
  · refine pite _ _ _ (Or.inl (by norm_num)) ?_
    refine pite _ _ _ (Or.inl (by norm_num)) ?_
    refine pite _ _ _ (Or.inl (by norm_num)) ?_
    refine pite _ _ _ (Or.inl (by norm_num)) ?_
    refine pite _ _ _ (Or.inl (by norm_num)) ?_
    refine pite _ _ _ (Or.inl (by norm_num)) ?_
    refine pite _ _ _ (Or.inl (by norm_num)) ?_
    refine pite _ _ _ (Or.inl (by norm_num)) ?_
    refine pite _ _ _ (Or.inl (by norm_num)) ?_
    exact Or.inr rfl

theorem insulinDayRange (d : DrugData) (q : ℚ) (sig m : List Char) :
    ∃ n : ℤ, (processInsulin d q sig m).2.1 = (n : ℚ) ∧ 7 ≤ n ∧ n ≤ 365 := by
  unfold processInsulin
  exact ⟨_, rfl, clampZ_ge7 _, clampZ_le365 _⟩

theorem diabeticDayRange (d : DrugData) (q : ℚ) (sig m : List Char) :
    ∃ n : ℤ, (processDiabeticInjectable d q sig m).2.1 = (n : ℚ) ∧ 7 ≤ n ∧ n ≤ 365 := by
  unfold processDiabeticInjectable
  exact ⟨_, rfl, clampZ_ge7 _, clampZ_le365 _⟩

theorem topicalDayRange (ftu : List FtuRow) (q : ℚ) (sig : List Char) :
    ∃ n : ℤ, (processTopicalFtu ftu q sig).2.1 = (n : ℚ) ∧ 7 ≤ n ∧ n ≤ 365 := by
  unfold processTopicalFtu
  exact ⟨_, rfl, clampZ_ge7 _, clampZ_le365 _⟩

theorem nasalDayRange (d : DrugData) (q : ℚ) (sig m : List Char)
    (hno : nasalOverrideName (pyLower m) = false) :
    ∃ n : ℤ, (processNasalInhaler d q sig m).2.1 = (n : ℚ) ∧ 7 ≤ n ∧ n ≤ 365 := by
  have h := hno
  unfold nasalOverrideName at h
  simp only [Bool.or_eq_false_iff] at h
  obtain ⟨⟨⟨⟨⟨⟨⟨⟨h1, h2⟩, h3⟩, h4⟩, h5⟩, h6⟩, h7⟩, h8⟩, h9⟩ := h
  unfold processNasalInhaler
  simp only [h1, h2, h3, h4, h5, h6, h7, h8, h9, Bool.or_self, Bool.false_eq_true,
    if_false]
  exact ⟨_, rfl, clampZ_ge7 _, clampZ_le365 _⟩

theorem oralDayRange (d : DrugData) (q : ℚ) (sig m : List Char) :
    7 ≤ (processOralInhaler d q sig m).2.1 ∧ (processOralInhaler d q sig m).2.1 ≤ 365 := by
  unfold processOralInhaler
  exact ⟨qclamp_ge7 _, qclamp_le365 _⟩

theorem oralComputedInt (d : DrugData) (q : ℚ) (sig m : List Char)
    (hne : strHas (pyLower m) ("ellipta".data) = false) :
    ∃ z : ℤ, oralComputedDays d q sig m = (z : ℚ) := by
  unfold oralComputedDays
  simp only [hne, Bool.false_eq_true, if_false]
  split
  · exact ⟨_, rfl⟩
  · exact ⟨_, rfl⟩

theorem oralDayInt (d : DrugData) (q : ℚ) (sig m : List Char)
    (hne : strHas (pyLower m) ("ellipta".data) = false) :
    ∃ n : ℤ, (processOralInhaler d q sig m).2.1 = (n : ℚ) := by
  obtain ⟨z, hz⟩ := oralComputedInt d q sig m hne
  unfold processOralInhaler
  simp only [hz]
  by_cases hdd : 0 < d.discardAfterOpeningDays.getD 0
  · rw [if_pos hdd, ← Int.cast_min, qclamp_cast]
    exact ⟨_, rfl⟩
  · rw [if_neg hdd, qclamp_cast]
    exact ⟨_, rfl⟩

/-! ## Claim theorems -/

/--
C2 (code_bug evidence): for the in-contract request (drug "humalog" —
matched with confidence 1 — quantity string "1.2.3", directions
"15 units tid"), `extract_prescription_data` propagates a `ValueError` to
the caller instead of returning the degraded 30-day result: the handler
guard `str(q).replace(".", "").isdigit()` passes ("123"), but the guarded
`float("1.2.3")` itself raises.
-/
theorem c2_theorem :
    errPart (extract simZero badQtyDb [] badQtyInput) = some .valueError ∧
    pyIsdigit ((("1.2.3".data)).filter (fun c => c != '.')) = true ∧
    pyFloatStr ("1.2.3".data) = none := by decide

/--
C3 (code_bug evidence): a biologic-injectable request never reaches the
weekly/biweekly/monthly keyword formula.  The dispatcher invokes the
undefined `_process_biologic_injectable`, the `AttributeError` is caught,
and the degraded 30-day result with the echoed original directions is
returned — while the (dead) `_process_injectable` formula the claim and
spec describe would give `quantity × 7 = 28` for "inject weekly", qty 4.
-/
theorem c3_theorem :
    okPart (extract simZero enbrelDb [] enbrelInput) = some enbrelActual ∧
    enbrelActual.daySupply = 30 ∧
    enbrelActual.stdSig = .raw ("inject weekly".data) ∧
    (processInjectable {} 4 ("inject weekly".data) true).2.1 = 28 ∧
    ((30 : ℚ) ≠ 28) := by decide

/--
C4 (confirmed): whenever the matcher returns no candidate, or a candidate
whose confidence is below 0.80, the orchestrator returns the fixed
unsupported-medication result — matched name `none`, confidence 0.0, day
supply 0, the fixed "MEDICATION NOT IN PAAS DATABASE" marker, and a
non-empty warnings list — and no category formula runs.
-/
theorem c4_theorem (simFn : List Char → List Char → ℚ) (db : Database)
    (ftu : List FtuRow) (p : Prescription)
    (h : (fuzzyMatch simFn (db.map Prod.fst) p.drugName).1 = none ∨
         (fuzzyMatch simFn (db.map Prod.fst) p.drugName).2 < 4 / 5) :
    extract simFn db ftu p = .ok (unsupportedResult p) ∧
    (unsupportedResult p).matchedName = none ∧
    (unsupportedResult p).confidence = 0 ∧
    (unsupportedResult p).daySupply = 0 ∧
    (unsupportedResult p).stdSig = .raw notInDbMarker ∧
    (unsupportedResult p).warnings ≠ [] := by
  refine ⟨?_, rfl, rfl, rfl, rfl, by simp [unsupportedResult]⟩
  rcases hfm : fuzzyMatch simFn (db.map Prod.fst) p.drugName with ⟨mo, conf⟩
  rw [hfm] at h
  simp only at h
  cases mo with
  | none =>
    simp only [extract, hfm]
  | some m =>
    rcases h with h | h
    · exact absurd h (by simp)
    · simp only [extract, hfm]
      rw [if_pos h]

/-- C4 witness at a concrete unmatched input. -/
theorem c4_witness :
    extract simZero w4Db [] w4Input = .ok (unsupportedResult w4Input) ∧
    (unsupportedResult w4Input).matchedName = none ∧
    (unsupportedResult w4Input).confidence = 0 ∧
    (unsupportedResult w4Input).daySupply = 0 ∧
    (unsupportedResult w4Input).stdSig = .raw notInDbMarker ∧
    (unsupportedResult w4Input).warnings ≠ [] :=
  c4_theorem simZero w4Db [] w4Input (by decide)

/--
C6 (confirmed): the insulin day supply is
`int(quantity × units-per-package / (units-per-dose × frequency))`,
the beyond-use window caps it only when it exceeds the window (a lower
computed value is never raised), and the result is then clamped into
[7, 365].  The Humalog scenario (quantity 5, "15 units tid") resolves to
the insulin category, frequency 3.0, corrected quantity 5, dose 15, and a
day supply of total package units ÷ (15 × 3), capped and clamped.
-/
theorem c6_theorem (d : DrugData) (q : ℚ) (sig m : List Char)
    (hf : 0 < calcFreq sig) (hdo : 0 < insulinDose sig) :
    ((processInsulin d q sig m).1 = q ∧
     (processInsulin d q sig m).2.1 =
       ((clampZ (if 0 < d.beyondUseDateDays.getD 28
           then min (pyInt (q * insulinUnits d / (insulinDose sig * calcFreq sig)))
                (d.beyondUseDateDays.getD 28)
           else pyInt (q * insulinUnits d / (insulinDose sig * calcFreq sig))) : ℤ) : ℚ) ∧
     (pyInt (q * insulinUnits d / (insulinDose sig * calcFreq sig))
         ≤ d.beyondUseDateDays.getD 28 →
       (processInsulin d q sig m).2.1 =
         ((clampZ (pyInt (q * insulinUnits d / (insulinDose sig * calcFreq sig))) : ℤ) : ℚ))) ∧
    ((okPart (extract simZero humalogDb [] humalogInput)).map Extracted.medType
        = some .insulin ∧
     (okPart (extract simZero humalogDb [] humalogInput)).map Extracted.correctedQty
        = some 5 ∧
     calcFreq ("15 units tid".data) = 3 ∧
     insulinDose ("15 units tid".data) = 15 ∧
     (okPart (extract simZero humalogDb [] humalogInput)).map Extracted.daySupply
        = some (((clampZ (min (pyInt ((5 : ℚ) * 1500 / (15 * 3))) 28) : ℤ) : ℚ))) := by
  have hbody : insulinPreClamp d q sig =
      (if 0 < d.beyondUseDateDays.getD 28
       then min (pyInt (q * insulinUnits d / (insulinDose sig * calcFreq sig)))
            (d.beyondUseDateDays.getD 28)
       else pyInt (q * insulinUnits d / (insulinDose sig * calcFreq sig))) := by
    simp only [insulinPreClamp]
    rw [if_pos hf]
    set cd := pyInt (q * insulinUnits d / (insulinDose sig * calcFreq sig)) with hcd
    set bud := d.beyondUseDateDays.getD 28 with hbud
    by_cases h1 : 0 < bud
    · by_cases h2 : bud < cd
      · rw [if_pos ⟨h2, h1⟩, if_pos h1, min_eq_right (le_of_lt h2)]
      · rw [if_neg (fun hc => h2 hc.1), if_pos h1, min_eq_left (not_lt.mp h2)]
    · rw [if_neg (fun hc => h1 hc.2), if_neg h1]
  refine ⟨⟨rfl, ?_, ?_⟩, by decide, by decide, by decide, by decide, by decide⟩
  · show ((clampZ (insulinPreClamp d q sig) : ℤ) : ℚ) = _
    rw [hbody]
  · intro hle
    show ((clampZ (insulinPreClamp d q sig) : ℤ) : ℚ) = _
    rw [hbody]
    by_cases h1 : 0 < d.beyondUseDateDays.getD 28
    · rw [if_pos h1, min_eq_left hle]
    · rw [if_neg h1]

/-- C6 witness at the Humalog scenario input. -/
theorem c6_witness :
    (processInsulin humalogData 5 ("15 units tid".data) ("humalog".data)).1 = 5 ∧
    (pyInt ((5 : ℚ) * insulinUnits humalogData
        / (insulinDose ("15 units tid".data) * calcFreq ("15 units tid".data)))
      ≤ humalogData.beyondUseDateDays.getD 28 →
     (processInsulin humalogData 5 ("15 units tid".data) ("humalog".data)).2.1 =
       ((clampZ (pyInt ((5 : ℚ) * insulinUnits humalogData
          / (insulinDose ("15 units tid".data) * calcFreq ("15 units tid".data)))) : ℤ) : ℚ)) :=
  ⟨(c6_theorem humalogData 5 ("15 units tid".data) ("humalog".data)
      (by decide) (by decide)).1.1,
   (c6_theorem humalogData 5 ("15 units tid".data) ("humalog".data)
      (by decide) (by decide)).1.2.2⟩

/--
C7 (corrected): with a positive discard window the final oral-inhaler day
supply is the [7, 365]-clamp of `min(computed, discardDays)` — not the bare
minimum the claim states; when the window itself lies inside [7, 365] and
the computed economic day supply exceeds it, the final day supply does
equal the window.
-/
theorem c7_theorem (d : DrugData) (q : ℚ) (sig m : List Char)
    (hdd : 0 < d.discardAfterOpeningDays.getD 0) :
    (processOralInhaler d q sig m).2.1
      = qclamp (min (oralComputedDays d q sig m)
          ((d.discardAfterOpeningDays.getD 0 : ℤ) : ℚ)) ∧
    (7 ≤ ((d.discardAfterOpeningDays.getD 0 : ℤ) : ℚ) →
     ((d.discardAfterOpeningDays.getD 0 : ℤ) : ℚ) ≤ 365 →
     ((d.discardAfterOpeningDays.getD 0 : ℤ) : ℚ) < oralComputedDays d q sig m →
     (processOralInhaler d q sig m).2.1 = ((d.discardAfterOpeningDays.getD 0 : ℤ) : ℚ)) := by
  have hmain : (processOralInhaler d q sig m).2.1
      = qclamp (min (oralComputedDays d q sig m)
          ((d.discardAfterOpeningDays.getD 0 : ℤ) : ℚ)) := by
    show qclamp (if 0 < d.discardAfterOpeningDays.getD 0 then _ else _) = _
    rw [if_pos hdd]
  refine ⟨hmain, ?_⟩
  intro h7 h365 hgt
  rw [hmain, min_eq_right (le_of_lt hgt)]
  unfold qclamp
  rw [min_eq_left h365, max_eq_right h7]

/--
C7 counterexample: a 3-day discard window with a computed economic day
supply of 50 yields a final day supply of 7 (the clamp floor), not
`min(50, 3) = 3` as the claim states.
-/
theorem c7_counterexample :
    oralComputedDays shortDiscardData 1 ("2 puffs twice daily".data) ("aerobid".data) = 50 ∧
    shortDiscardData.discardAfterOpeningDays = some 3 ∧
    (processOralInhaler shortDiscardData 1 ("2 puffs twice daily".data)
      ("aerobid".data)).2.1 = 7 ∧
    min (50 : ℚ) 3 ≠ 7 := by decide

/-- C7 witness: a 30-day window capping a computed 50-day supply to 30. -/
theorem c7_witness :
    (processOralInhaler discard30Data 1 ("2 puffs twice daily".data)
      ("aerobid".data)).2.1 = ((30 : ℤ) : ℚ) :=
  (c7_theorem discard30Data 1 ("2 puffs twice daily".data) ("aerobid".data)
    (by decide)).2 (by decide) (by decide) (by decide)

/--
C8 (corrected): in a directions string with no weekly/biweekly/monthly
phrase and no PRN phrase, a specific multi-dose keyword (QID family, TID
family, BID family) wins over a generic daily keyword, yielding 4.0, 3.0
or 2.0 respectively (each family subject to the higher-priority families
being absent) — the unrestricted claim fails for strings that also carry a
PRN or weekly phrase.
-/
theorem c8_theorem (sig : List Char)
    (hg : dailyKw (pyLower sig) = true)
    (hw : weeklyKw (pyLower sig) = false)
    (hb : biweeklyKw (pyLower sig) = false)
    (hm : monthlyKw (pyLower sig) = false)
    (hp : prnKw (pyLower sig) = false) :
    (qidKw (pyLower sig) = true → calcFreq sig = 4) ∧
    (tidKw (pyLower sig) = true → qidKw (pyLower sig) = false → calcFreq sig = 3) ∧
    (bidKw (pyLower sig) = true → qidKw (pyLower sig) = false →
      tidKw (pyLower sig) = false → calcFreq sig = 2) := by
  refine ⟨fun hq => ?_, fun ht hq => ?_, fun h2 hq ht => ?_⟩
  · simp [calcFreq, hw, hb, hm, hp, hq]
  · simp [calcFreq, hw, hb, hm, hp, hq, ht]
  · simp [calcFreq, hw, hb, hm, hp, hq, ht, h2]

/--
C8 counterexample: "take twice daily as needed" contains both the specific
BID keyword "twice" and the generic "daily", yet the parser returns the
PRN estimate 1.5, not the 2.0 the claim requires.
-/
theorem c8_counterexample :
    calcFreq ("take twice daily as needed".data) = 3 / 2 ∧
    bidKw (pyLower ("take twice daily as needed".data)) = true ∧
    dailyKw (pyLower ("take twice daily as needed".data)) = true ∧
    ((3 : ℚ) / 2 ≠ 2) := by decide

/-- C8 witness: "take twice daily" resolves to 2.0. -/
theorem c8_witness :
    (qidKw (pyLower ("take twice daily".data)) = true →
      calcFreq ("take twice daily".data) = 4) ∧
    (tidKw (pyLower ("take twice daily".data)) = true →
      qidKw (pyLower ("take twice daily".data)) = false →
      calcFreq ("take twice daily".data) = 3) ∧
    (bidKw (pyLower ("take twice daily".data)) = true →
      qidKw (pyLower ("take twice daily".data)) = false →
      tidKw (pyLower ("take twice daily".data)) = false →
      calcFreq ("take twice daily".data) = 2) :=
  c8_theorem ("take twice daily".data) (by decide) (by decide) (by decide)
    (by decide) (by decide)

/--
C9 (confirmed): a per/each/both-nostril phrase exactly doubles the
per-dose spray count relative to the extracted base count; "1 spray each
nostril" gives 2 where "1 spray" gives 1, and "2 puffs per nostril daily"
gives 4 before multiplication by frequency.
-/
theorem c9_theorem (sig : List Char) (h : nostrilPhrase (pyLower sig) = true) :
    nasalSpraysPerDose sig = sprayBase sig * 2 ∧
    nasalSpraysPerDose ("1 spray each nostril".data) = 2 ∧
    nasalSpraysPerDose ("1 spray".data) = 1 ∧
    nasalSpraysPerDose ("2 puffs per nostril daily".data) = 4 := by
  refine ⟨?_, by decide, by decide, by decide⟩
  simp [nasalSpraysPerDose, h]

/-- C9 witness at "1 spray each nostril". -/
theorem c9_witness :
    nasalSpraysPerDose ("1 spray each nostril".data)
      = sprayBase ("1 spray each nostril".data) * 2 ∧
    nasalSpraysPerDose ("1 spray each nostril".data) = 2 ∧
    nasalSpraysPerDose ("1 spray".data) = 1 ∧
    nasalSpraysPerDose ("2 puffs per nostril daily".data) = 4 :=
  c9_theorem ("1 spray each nostril".data) (by decide)

/--
C10 (corrected): the rule-based frequency parser is nonnegative, and every
branch except the explicit "N times per day" numeric pattern returns at
least 1/30; values below 1/30 — including 0 — can only be the literal
number captured by that pattern.  Whenever the parsed frequency and the
per-dose amount are both positive, the eyedrop daily-usage guard takes
the division branch rather than the 30-day fallback.
-/
theorem c10_theorem (sig : List Char) :
    0 ≤ calcFreq sig ∧
    (calcFreq sig < 1 / 30 →
      ∃ v, timesSearch (pyLower sig) = some v ∧ calcFreq sig = v) ∧
    (∀ dpd tot : ℚ, 0 < dpd → 0 < calcFreq sig →
      eyedropCalcDays tot (dpd * calcFreq sig)
        = ((pyInt (tot / (dpd * calcFreq sig)) : ℤ) : ℚ)) := by
  refine ⟨?_, ?_, ?_⟩
  · rcases calcFreq_cases sig with hc | hc
    · linarith
    · rw [hc]
      rcases ht : timesSearch (pyLower sig) with _ | v
      · simp
      · simp only [Option.getD_some]
        exact timesSearch_nonneg _ _ ht
  · intro hlt
    rcases calcFreq_cases sig with hc | hc
    · exact absurd hlt (not_lt.mpr hc)
    · rcases ht : timesSearch (pyLower sig) with _ | v
      · rw [hc, ht] at hlt; norm_num at hlt
      · exact ⟨v, rfl, by rw [hc, ht]; rfl⟩
  · intro dpd tot h1 h2
    unfold eyedropCalcDays
    rw [if_pos (mul_pos h1 h2)]

/--
C10 counterexample: "inject 0 times per day" makes the parser return 0 —
not a strictly positive value — and with any positive per-dose amount the
eyedrop guard then takes the hard-coded 30-day fallback.
-/
theorem c10_counterexample :
    calcFreq ("inject 0 times per day".data) = 0 ∧
    ¬ 0 < calcFreq ("inject 0 times per day".data) ∧
    eyedropCalcDays 100 (2 * calcFreq ("inject 0 times per day".data)) = 30 := by decide

/-- C10 witness at "2 drops twice daily" with a positive per-dose amount. -/
theorem c10_witness :
    0 ≤ calcFreq ("2 drops twice daily".data) ∧
    eyedropCalcDays 200 (2 * calcFreq ("2 drops twice daily".data))
      = ((pyInt (200 / (2 * calcFreq ("2 drops twice daily".data))) : ℤ) : ℚ) :=
  ⟨(c10_theorem ("2 drops twice daily".data)).1,
   (c10_theorem ("2 drops twice daily".data)).2.2 2 200 (by norm_num) (by decide)⟩

/-! ## Matcher lemmas (C5) -/

theorem subScore_nonneg (inp k : List Char) : 0 ≤ subScore inp k := by
  unfold subScore
  split
  · exact le_min (by norm_num) (by positivity)
  · exact le_min (by norm_num) (by positivity)

theorem subScore_le (inp k : List Char) : subScore inp k ≤ 19 / 20 := by
  unfold subScore
  split
  · exact min_le_left _ _
  · exact min_le_left _ _

theorem keyScore_nonneg (simFn : List Char → List Char → ℚ) (inp k : List Char) :
    0 ≤ keyScore simFn inp k := by
  unfold keyScore
  apply le_max_of_le_left
  split
  · exact subScore_nonneg _ _
  · exact le_refl 0

theorem scanStep_nonneg (simFn : List Char → List Char → ℚ) (inp : List Char)
    (st : Option (List Char) × ℚ) (k : List Char) (h0 : 0 ≤ st.2) :
    0 ≤ (scanStep simFn inp st k).2 := by
  unfold scanStep
  split
  · exact keyScore_nonneg _ _ _
  · exact h0

theorem keyUpdate_eq_scanStep (simFn : List Char → List Char → ℚ)
    (inp k : List Char) (best : Option (List Char) × ℚ) (h0 : 0 ≤ best.2) :
    keyUpdate simFn inp k best = scanStep simFn inp best k := by
  unfold keyUpdate scanStep keyScore
  by_cases hsub : (strHas k inp || strHas inp k) = true
  · simp only [hsub, if_true]
    by_cases h1 : best.2 < subScore inp k
    · simp only [if_pos h1]
      by_cases h2 : 6 / 10 ≤ simFn inp k
      · by_cases h3 : subScore inp k < simFn inp k
        · rw [if_pos ⟨h3, h2⟩, if_pos h2, max_eq_right (le_of_lt h3),
            if_pos (lt_trans h1 h3)]
        · rw [if_neg (fun hc => h3 hc.1), if_pos h2,
            max_eq_left (not_lt.mp h3), if_pos h1]
      · rw [if_neg (fun hc => h2 hc.2), if_neg h2,
          max_eq_left (subScore_nonneg inp k), if_pos h1]
    · simp only [if_neg h1]
      by_cases h2 : 6 / 10 ≤ simFn inp k
      · by_cases h3 : best.2 < simFn inp k
        · rw [if_pos ⟨h3, h2⟩, if_pos h2,
            max_eq_right (le_trans (not_lt.mp h1) (le_of_lt h3)), if_pos h3]
        · rw [if_neg (fun hc => h3 hc.1), if_pos h2]
          rw [if_neg (not_lt.mpr (max_le (not_lt.mp h1) (not_lt.mp h3)))]
      · rw [if_neg (fun hc => h2 hc.2), if_neg h2]
        rw [if_neg (not_lt.mpr (max_le (not_lt.mp h1) h0))]
  · simp only [hsub, Bool.false_eq_true, if_false]
    by_cases h2 : 6 / 10 ≤ simFn inp k
    · by_cases h3 : best.2 < simFn inp k
      · rw [if_pos ⟨h3, h2⟩, if_pos h2, max_eq_right (le_trans h0 (le_of_lt h3)),
          if_pos h3]
      · rw [if_neg (fun hc => h3 hc.1), if_pos h2,
          if_neg (not_lt.mpr (max_le h0 (not_lt.mp h3)))]
    · rw [if_neg (fun hc => h2 hc.2), if_neg h2,
        if_neg (not_lt.mpr (max_le h0 h0))]

theorem keyUpdate_nonneg (simFn : List Char → List Char → ℚ) (inp k : List Char)
    (best : Option (List Char) × ℚ) (h0 : 0 ≤ best.2) :
    0 ≤ (keyUpdate simFn inp k best).2 := by
  rw [keyUpdate_eq_scanStep simFn inp k best h0]
  exact scanStep_nonneg simFn inp best k h0

theorem keyUpdate_bounds (simFn : List Char → List Char → ℚ) (inp k : List Char)
    (best : Option (List Char) × ℚ) (hs0 : 0 ≤ simFn inp k) (hs1 : simFn inp k ≤ 1)
    (h0 : 0 ≤ best.2) (h1 : best.2 ≤ 1) :
    0 ≤ (keyUpdate simFn inp k best).2 ∧ (keyUpdate simFn inp k best).2 ≤ 1 := by
  have pif : ∀ (c : Prop) [Decidable c] (x y : Option (List Char) × ℚ),
      (0 ≤ x.2 ∧ x.2 ≤ 1) → (0 ≤ y.2 ∧ y.2 ≤ 1) →
      (0 ≤ (if c then x else y).2 ∧ (if c then x else y).2 ≤ 1) := by
    intro c _ x y hx hy
    split
    · exact hx
    · exact hy
  simp only [keyUpdate]
  exact pif _ _ _ ⟨hs0, hs1⟩
    (pif _ _ _
      (pif _ _ _ ⟨subScore_nonneg _ _, le_trans (subScore_le _ _) (by norm_num)⟩
        ⟨h0, h1⟩)
      ⟨h0, h1⟩)

theorem fuzzyLoop_exact (simFn : List Char → List Char → ℚ) (inp : List Char) :
    ∀ (keys : List (List Char)) (st : Option (List Char) × ℚ), inp ∈ keys →
      fuzzyLoop simFn inp keys st = (some inp, 1) := by
  intro keys
  induction keys with
  | nil => intro st h; cases h
  | cons k ks ih =>
    intro st h
    by_cases he : inp = k
    · subst he
      simp [fuzzyLoop]
    · simp only [fuzzyLoop]
      rw [if_neg he]
      rcases List.mem_cons.mp h with h | h
      · exact absurd h he
      · exact ih _ h

theorem fuzzyLoop_bounds (simFn : List Char → List Char → ℚ)
    (hsim : ∀ a b, 0 ≤ simFn a b ∧ simFn a b ≤ 1) (inp : List Char) :
    ∀ (keys : List (List Char)) (st : Option (List Char) × ℚ),
      0 ≤ st.2 → st.2 ≤ 1 →
      0 ≤ (fuzzyLoop simFn inp keys st).2 ∧ (fuzzyLoop simFn inp keys st).2 ≤ 1 := by
  intro keys
  induction keys with
  | nil =>
    intro st h0 h1
    exact ⟨h0, h1⟩
  | cons k ks ih =>
    intro st h0 h1
    simp only [fuzzyLoop]
    by_cases he : inp = k
    · rw [if_pos he]
      exact ⟨by norm_num, by norm_num⟩
    · rw [if_neg he]
      obtain ⟨hu0, hu1⟩ :=
        keyUpdate_bounds simFn inp k st (hsim inp k).1 (hsim inp k).2 h0 h1
      exact ih _ hu0 hu1

theorem fuzzyLoop_scan (simFn : List Char → List Char → ℚ) (inp : List Char) :
    ∀ (keys : List (List Char)) (st : Option (List Char) × ℚ),
      0 ≤ st.2 → (∀ k ∈ keys, inp ≠ k) →
      fuzzyLoop simFn inp keys st = keys.foldl (scanStep simFn inp) st := by
  intro keys
  induction keys with
  | nil =>
    intro st _ _
    rfl
  | cons k ks ih =>
    intro st h0 hne
    have hk : inp ≠ k := hne k (List.mem_cons_self k ks)
    simp only [fuzzyLoop, List.foldl_cons]
    rw [if_neg hk, keyUpdate_eq_scanStep simFn inp k st h0]
    exact ih _ (scanStep_nonneg simFn inp st k h0)
      (fun k2 hk2 => hne k2 (List.mem_cons_of_mem _ hk2))

/--
C5 (confirmed): given only that the similarity oracle
(`SequenceMatcher.ratio`) stays in [0, 1], the matcher (i) always returns
a confidence in [0, 1]; (ii) returns the key with confidence exactly 1.0
whenever the lowercased, trimmed input equals any catalog key; and (iii)
in the absence of an exact match, equals the left-to-right scan that
scores each key as the maximum of the substring score
(min(0.95, shorter/longer + 0.2)) and the similarity score (accepted only
when at least 0.6), replacing the running best only on a strictly higher
score — so the earliest key wins ties.
-/
theorem c5_theorem (simFn : List Char → List Char → ℚ) (keys : List (List Char))
    (name : List Char) (hsim : ∀ a b, 0 ≤ simFn a b ∧ simFn a b ≤ 1) :
    (0 ≤ (fuzzyMatch simFn keys name).2 ∧ (fuzzyMatch simFn keys name).2 ≤ 1) ∧
    (cleanName name ∈ keys →
      fuzzyMatch simFn keys name = (some (cleanName name), 1)) ∧
    ((∀ k ∈ keys, cleanName name ≠ k) →
      fuzzyMatch simFn keys name
        = keys.foldl (scanStep simFn (cleanName name)) (none, 0)) := by
  refine ⟨?_, ?_, ?_⟩
  · exact fuzzyLoop_bounds simFn hsim (cleanName name) keys (none, 0)
      (le_refl 0) (by norm_num)
  · intro hm
    exact fuzzyLoop_exact simFn (cleanName name) keys (none, 0) hm
  · intro hne
    exact fuzzyLoop_scan simFn (cleanName name) keys (none, 0) (le_refl 0) hne

/-- C5 witness at a concrete key list and input. -/
theorem c5_witness :
    (0 ≤ (fuzzyMatch simZero [("abc".data)] ("  ABC ".data)).2 ∧
      (fuzzyMatch simZero [("abc".data)] ("  ABC ".data)).2 ≤ 1) ∧
    (cleanName ("  ABC ".data) ∈ [("abc".data)] →
      fuzzyMatch simZero [("abc".data)] ("  ABC ".data)
        = (some (cleanName ("  ABC ".data)), 1)) ∧
    ((∀ k ∈ [("abc".data)], cleanName ("  ABC ".data) ≠ k) →
      fuzzyMatch simZero [("abc".data)] ("  ABC ".data)
        = List.foldl (scanStep simZero (cleanName ("  ABC ".data))) (none, 0)
            [("abc".data)]) :=
  c5_theorem simZero [("abc".data)] ("  ABC ".data)
    (fun _ _ => ⟨le_refl 0, by norm_num [simZero]⟩)

/-! ## Orchestrator range lemmas (C1) -/

theorem rangeFromInt {x : ℚ} (h : ∃ n : ℤ, x = (n : ℚ) ∧ 7 ≤ n ∧ n ≤ 365) :
    (7 ≤ x ∧ x ≤ 365) ∧ ∃ n : ℤ, x = (n : ℚ) := by
  obtain ⟨n, hn, h7, h365⟩ := h
  subst hn
  exact ⟨⟨by exact_mod_cast h7, by exact_mod_cast h365⟩, ⟨n, rfl⟩⟩

theorem c1_unsupported (p : Prescription) :
    ((unsupportedResult p).matchedName = none →
      (unsupportedResult p).daySupply = 0 ∧ (unsupportedResult p).confidence = 0) ∧
    (∀ m1, (unsupportedResult p).matchedName = some m1 →
      ((unsupportedResult p).medType = MedicationType.nasalInhaler →
        nasalOverrideName (pyLower m1) = false) →
      7 ≤ (unsupportedResult p).daySupply ∧ (unsupportedResult p).daySupply ≤ 365 ∧
      (((unsupportedResult p).medType = MedicationType.oralInhaler →
        strHas (pyLower m1) ("ellipta".data) = false) →
       ∃ n : ℤ, (unsupportedResult p).daySupply = (n : ℚ))) := by
  refine ⟨fun _ => ⟨rfl, rfl⟩, ?_⟩
  intro m1 hm1
  exact absurd hm1 (by simp [unsupportedResult])

theorem c1_degraded (p : Prescription) (m : List Char) (mt : MedicationType)
    (conf : ℚ) (r : Extracted) (h : degradedResult p m mt conf = .ok r) :
    (r.matchedName = none → r.daySupply = 0 ∧ r.confidence = 0) ∧
    (∀ m1, r.matchedName = some m1 →
      (r.medType = MedicationType.nasalInhaler →
        nasalOverrideName (pyLower m1) = false) →
      7 ≤ r.daySupply ∧ r.daySupply ≤ 365 ∧
      ((r.medType = MedicationType.oralInhaler →
        strHas (pyLower m1) ("ellipta".data) = false) →
       ∃ n : ℤ, r.daySupply = (n : ℚ))) := by
  unfold degradedResult at h
  split at h
  · cases h
    refine ⟨fun hmm => absurd hmm (by simp), ?_⟩
    intro m1 hm1 _
    refine ⟨show (7 : ℚ) ≤ 30 by norm_num, show (30 : ℚ) ≤ 365 by norm_num, ?_⟩
    exact fun _ => ⟨30, show (30 : ℚ) = ((30 : ℤ) : ℚ) by norm_num⟩
  · cases h

theorem c1_aux (p : Prescription) (m : List Char) (mt : MedicationType) (conf : ℚ)
    (t : ℚ × ℚ × StdText)
    (hb : (mt = MedicationType.nasalInhaler → nasalOverrideName (pyLower m) = false) →
          7 ≤ t.2.1 ∧ t.2.1 ≤ 365)
    (hi : (mt = MedicationType.nasalInhaler → nasalOverrideName (pyLower m) = false) →
          (mt = MedicationType.oralInhaler → strHas (pyLower m) ("ellipta".data) = false) →
          ∃ n : ℤ, t.2.1 = (n : ℚ)) :
    ((mkResult p m mt conf t).matchedName = none →
      (mkResult p m mt conf t).daySupply = 0 ∧ (mkResult p m mt conf t).confidence = 0) ∧
    (∀ m1, (mkResult p m mt conf t).matchedName = some m1 →
      ((mkResult p m mt conf t).medType = MedicationType.nasalInhaler →
        nasalOverrideName (pyLower m1) = false) →
      7 ≤ (mkResult p m mt conf t).daySupply ∧
      (mkResult p m mt conf t).daySupply ≤ 365 ∧
      (((mkResult p m mt conf t).medType = MedicationType.oralInhaler →
        strHas (pyLower m1) ("ellipta".data) = false) →
       ∃ n : ℤ, (mkResult p m mt conf t).daySupply = (n : ℚ))) := by
  refine ⟨fun hmm => absurd hmm (by simp [mkResult]), ?_⟩
  intro m1 hm1 hno
  have h2 : some m = some m1 := hm1
  injection h2 with h3
  subst h3
  exact ⟨(hb hno).1, (hb hno).2, fun hor => hi hno hor⟩

/--
C1 (corrected): for every request the orchestrator completes, an unmatched
result carries day supply 0 and confidence 0.0; a matched result whose
processing does not hit a per-brand nasal-inhaler override branch
(calcitonin, butorphanol, migranol/migranal, nayzilam/neffy, zavzpret,
sprix/trudhesa — those bypass the final clamp) has a day supply in
[7, 365], and that day supply is integral except on the oral-inhaler
ellipta branch.
-/
theorem c1_theorem (simFn : List Char → List Char → ℚ) (db : Database)
    (ftu : List FtuRow) (p : Prescription) (r : Extracted)
    (h : extract simFn db ftu p = .ok r) :
    (r.matchedName = none → r.daySupply = 0 ∧ r.confidence = 0) ∧
    (∀ m1, r.matchedName = some m1 →
      (r.medType = MedicationType.nasalInhaler →
        nasalOverrideName (pyLower m1) = false) →
      7 ≤ r.daySupply ∧ r.daySupply ≤ 365 ∧
      ((r.medType = MedicationType.oralInhaler →
        strHas (pyLower m1) ("ellipta".data) = false) →
       ∃ n : ℤ, r.daySupply = (n : ℚ))) := by
  simp only [extract] at h
  split at h
  · cases h
    exact c1_unsupported p
  · rename_i m conf hfm
    split at h
    · cases h
      exact c1_unsupported p
    · split at h
      · rename_i hmt
        split at h
        · rename_i f hf
          cases h
          exact c1_aux p m _ conf _
            (fun hno => (rangeFromInt (nasalDayRange (dbData db m) f p.sig m (hno hmt))).1)
            (fun hno _ => (rangeFromInt (nasalDayRange (dbData db m) f p.sig m (hno hmt))).2)
        · exact c1_degraded p m _ conf r h
      · rename_i hmt
        split at h
        · rename_i f hf
          cases h
          exact c1_aux p m _ conf _
            (fun _ => oralDayRange (dbData db m) f p.sig m)
            (fun _ hor => oralDayInt (dbData db m) f p.sig m (hor hmt))
        · exact c1_degraded p m _ conf r h
      · split at h
        · rename_i f hf
          cases h
          exact c1_aux p m _ conf _
            (fun _ => (rangeFromInt (insulinDayRange (dbData db m) f p.sig m)).1)
            (fun _ _ => (rangeFromInt (insulinDayRange (dbData db m) f p.sig m)).2)
        · exact c1_degraded p m _ conf r h
      · split at h
        · rename_i f hf
          cases h
          exact c1_aux p m _ conf _
            (fun _ => (rangeFromInt (diabeticDayRange (dbData db m) f p.sig m)).1)
            (fun _ _ => (rangeFromInt (diabeticDayRange (dbData db m) f p.sig m)).2)
        · exact c1_degraded p m _ conf r h
      · exact c1_degraded p m _ conf r h
      · exact c1_degraded p m _ conf r h
      · exact c1_degraded p m _ conf r h
      · split at h
        · rename_i f hf
          cases h
          exact c1_aux p m _ conf _
            (fun _ => (rangeFromInt (topicalDayRange ftu f p.sig)).1)
            (fun _ _ => (rangeFromInt (topicalDayRange ftu f p.sig)).2)
        · exact c1_degraded p m _ conf r h
      · split at h
        · rename_i f hf
          cases h
          exact c1_aux p m _ conf _
            (fun _ => ⟨show (7 : ℚ) ≤ 30 by norm_num, show (30 : ℚ) ≤ 365 by norm_num⟩)
            (fun _ _ => ⟨30, show (30 : ℚ) = ((30 : ℤ) : ℚ) by norm_num⟩)
        · exact c1_degraded p m _ conf r h

/--
C1 counterexample: the Zavzpret per-brand nasal branch returns the
package's spray count — here 6 — as the day supply of a matched,
confidence-1.0 request, which is outside [7, 365].
-/
theorem c1_counterexample :
    (okPart (extract simZero zavzpretDb [] zavzpretInput)).map Extracted.daySupply
      = some 6 ∧
    (okPart (extract simZero zavzpretDb [] zavzpretInput)).map Extracted.confidence
      = some 1 ∧
    (okPart (extract simZero zavzpretDb [] zavzpretInput)).map Extracted.medType
      = some .nasalInhaler ∧
    ¬ (7 : ℚ) ≤ 6 := by decide

/-- C1 witness at a matched nasal request outside the override families. -/
theorem c1_witness :
    (w1res.matchedName = none → w1res.daySupply = 0 ∧ w1res.confidence = 0) ∧
    (∀ m1, w1res.matchedName = some m1 →
      (w1res.medType = MedicationType.nasalInhaler →
        nasalOverrideName (pyLower m1) = false) →
      7 ≤ w1res.daySupply ∧ w1res.daySupply ≤ 365 ∧
      ((w1res.medType = MedicationType.oralInhaler →
        strHas (pyLower m1) ("ellipta".data) = false) →
       ∃ n : ℤ, w1res.daySupply = (n : ℚ))) :=
  c1_theorem simZero w1Db [] w1Input w1res (by decide)
